import Mathlib

/-!
Verification development for the s3-client repository.

The server layer is shallowly embedded: the AWS SDK is an external
collaborator, so each gateway operation takes the response of the provider as an
explicit argument and the nondeterministic inputs of the code (the random
session id, the clock) are explicit oracle parameters.  Every definition
follows the TypeScript source in `src/` unless its doc comment says
otherwise.
-/

set_option autoImplicit false

namespace S3ClientSpec

/-- Structure `AwsCredentials` from `src/shared/schema.ts` (`awsCredentialsSchema`):
required `accessKeyId`, `secretAccessKey`, `region`, optional `sessionToken`. -/
structure AwsCredentials where
  accessKeyId : String
  secretAccessKey : String
  region : String
  sessionToken : Option String
deriving DecidableEq, Repr

/-- Structure `S3Object` from `src/shared/schema.ts` (`s3ObjectSchema`).  Dates are
modelled as epoch milliseconds. -/
structure S3Object where
  key : String
  size : Option Nat
  lastModified : Option Nat
  etag : Option String
  storageClass : Option String
  isFolder : Bool
deriving DecidableEq, Repr

/-- Structure `S3Bucket` from `src/shared/schema.ts` (`s3BucketSchema`). -/
structure S3Bucket where
  name : String
  region : String
  creationDate : Option Nat
deriving DecidableEq, Repr

/-- Structure `S3Session` from `src/shared/schema.ts`. -/
structure S3Session where
  id : String
  credentials : AwsCredentials
  createdAt : Nat
deriving DecidableEq, Repr

/-! Session store (`src/server/storage.ts`, class `MemStorage`)

The JavaScript `Map` backing `MemStorage.sessions` is embedded as an
association list: `set` replaces the first binding of an existing key in
place and appends fresh keys, `get` returns the first binding, `delete`
drops the key.  `createSession` draws its id from `Math.random`, so the
embedded version takes the generated id (and the clock) as parameters. -/

/-- JS `Map.prototype.set`: overwrite an existing binding in place, or
append a new one. -/
def mapSet : List (String × S3Session) → String → S3Session → List (String × S3Session)
  | [], k, v => [(k, v)]
  | (k', v') :: rest, k, v =>
      if k' = k then (k, v) :: rest else (k', v') :: mapSet rest k v

/-- JS `Map.prototype.get`: first binding of the key, if any. -/
def mapGet (m : List (String × S3Session)) (k : String) : Option S3Session :=
  (m.find? (fun p => p.1 = k)).map (·.2)

/-- JS `Map.prototype.delete`: remove every binding of the key. -/
def mapDelete (m : List (String × S3Session)) (k : String) : List (String × S3Session) :=
  m.filter (fun p => ¬ p.1 = k)

/-- The in-memory state of `MemStorage`. -/
structure MemStorage where
  sessions : List (String × S3Session)
deriving DecidableEq, Repr

/-- Method `MemStorage.getSession`. -/
def MemStorage.getSession (st : MemStorage) (sessionId : String) : Option S3Session :=
  mapGet st.sessions sessionId

/-- Method `MemStorage.createSession`.  The source computes
`sessionId = Math.random().toString(36).substring(7)` and
`createdAt = new Date()`; both nondeterministic inputs are passed in as
`genId` and `now`.  Returns the created session and the new store state. -/
def MemStorage.createSession (st : MemStorage) (genId : String) (now : Nat)
    (credentials : AwsCredentials) : S3Session × MemStorage :=
  let session : S3Session := ⟨genId, credentials, now⟩
  (session, ⟨mapSet st.sessions genId session⟩)

/-- Method `MemStorage.deleteSession`. -/
def MemStorage.deleteSession (st : MemStorage) (sessionId : String) : MemStorage :=
  ⟨mapDelete st.sessions sessionId⟩

/-! Association-list lemmas used to settle the store claims. -/

theorem mapGet_nil (k : String) : mapGet [] k = none := rfl

theorem mapGet_cons (a : String) (b : S3Session) (tl : List (String × S3Session))
    (k : String) : mapGet ((a, b) :: tl) k = if a = k then some b else mapGet tl k := by
  by_cases h : a = k <;> simp [mapGet, List.find?, h]

theorem mapGet_mapSet_self (m : List (String × S3Session)) (k : String) (v : S3Session) :
    mapGet (mapSet m k v) k = some v := by
  induction m with
  | nil => simp [mapSet, mapGet_cons, mapGet_nil]
  | cons hd tl ih =>
      obtain ⟨a, b⟩ := hd
      by_cases h : a = k
      · simp [mapSet, h, mapGet_cons]
      · simpa [mapSet, h, mapGet_cons] using ih

theorem mapGet_mapSet_other (m : List (String × S3Session)) (k k' : String) (v : S3Session)
    (h : k' ≠ k) : mapGet (mapSet m k v) k' = mapGet m k' := by
  have h1 : ¬ k = k' := fun e => h e.symm
  induction m with
  | nil => simp [mapSet, mapGet_cons, mapGet_nil, h1]
  | cons hd tl ih =>
      obtain ⟨a, b⟩ := hd
      by_cases hk : a = k
      · have h2 : ¬ a = k' := fun e => h1 (hk.symm.trans e)
        simp [mapSet, hk, mapGet_cons, h1, h2]
      · by_cases ha : a = k'
        · simp [mapSet, hk, mapGet_cons, ha, h, h1]
        · simp [mapSet, hk, mapGet_cons, ha, ih]

theorem mapGet_mapDelete_self (m : List (String × S3Session)) (k : String) :
    mapGet (mapDelete m k) k = none := by
  induction m with
  | nil => rfl
  | cons hd tl ih =>
      obtain ⟨a, b⟩ := hd
      by_cases h : a = k
      · simpa [mapDelete, List.filter_cons, h] using ih
      · simpa [mapDelete, List.filter_cons, h, mapGet_cons] using ih

theorem mapGet_mapDelete_other (m : List (String × S3Session)) (k k' : String)
    (h : k' ≠ k) : mapGet (mapDelete m k) k' = mapGet m k' := by
  have h1 : ¬ k = k' := fun e => h e.symm
  induction m with
  | nil => rfl
  | cons hd tl ih =>
      obtain ⟨a, b⟩ := hd
      by_cases hk : a = k
      · have h2 : ¬ a = k' := fun e => h (hk.symm.trans e).symm
        simpa [mapDelete, List.filter_cons, hk, mapGet_cons, h2, h1] using ih
      · by_cases ha : a = k'
        · simp [mapDelete, List.filter_cons, hk, mapGet_cons, ha, h, h1]
        · simp [mapDelete, List.filter_cons, hk, mapGet_cons, ha]
          simpa [mapDelete] using ih

/-! AWS Client Gateway (`src/server/services/aws.ts`, class `AwsService`)

The AWS SDK is an external collaborator: each operation that performs a
remote call takes the reply of the provider (`Except String _`, an error being a
thrown SDK exception) as an explicit argument.  An operation on an unbound
client throws an Error carrying the not-initialized message before any remote call
happens, so those branches ignore the provider argument, exactly as the
source returns before building the command. -/

/-- The configuration handed to `new S3Client({...})` in
`initializeWithCredentials`. -/
structure S3ClientConfig where
  accessKeyId : String
  secretAccessKey : String
  sessionToken : Option String
  region : String
deriving DecidableEq, Repr

/-- The mutable `s3Client` field of `AwsService`: `null` until a bind. -/
structure AwsService where
  s3Client : Option S3ClientConfig
deriving DecidableEq, Repr

/-- Every failure an `AwsService` operation can raise: a thrown `Error`
carrying a message (the `ProviderError` of the spec wrapping the underlying
condition). -/
inductive AwsError where
  | provider (msg : String)
deriving DecidableEq, Repr

/-- The message of the error thrown by every operation on an unbound client. -/
def notInitializedMsg : String := "AWS client not initialized"

/-- Method `AwsService.initializeWithCredentials`: replaces `s3Client` with a client
bound to the given credentials. -/
def AwsService.initializeWithCredentials (_svc : AwsService) (c : AwsCredentials) :
    AwsService :=
  ⟨some ⟨c.accessKeyId, c.secretAccessKey, c.sessionToken, c.region⟩⟩

/-- One entry of a `ListBucketsCommand` reply field `Buckets`. -/
structure BucketData where
  name : String
  creationDate : Option Nat
deriving DecidableEq, Repr

/-- Method `AwsService.listBuckets`: fails when unbound, otherwise maps the
buckets of the provider, defaulting every region to `us-east-1`. -/
def AwsService.listBuckets (svc : AwsService)
    (resp : Except String (List BucketData)) : Except AwsError (List S3Bucket) :=
  match svc.s3Client with
  | none => .error (.provider notInitializedMsg)
  | some _ =>
      match resp with
      | .error e => .error (.provider e)
      | .ok buckets => .ok (buckets.map (fun b => ⟨b.name, "us-east-1", b.creationDate⟩))

/-- One entry of a `ListObjectsV2Command` reply field `Contents`. -/
structure ContentObject where
  key : String
  size : Option Nat
  lastModified : Option Nat
  etag : Option String
  storageClass : Option String
deriving DecidableEq, Repr

/-- A `ListObjectsV2Command` reply: `CommonPrefixes` and `Contents`
(an absent field is the empty list, matching the `if` guards of the source). -/
structure ListObjectsResponse where
  commonPrefixes : List String
  contents : List ContentObject
deriving DecidableEq, Repr

/-- The folder entries `listObjects` pushes for `response.CommonPrefixes`:
every common prefix becomes `{key, isFolder: true}` with no other field. -/
def folderEntries (resp : ListObjectsResponse) : List S3Object :=
  resp.commonPrefixes.map (fun p => ⟨p, none, none, none, none, true⟩)

/-- The file entries `listObjects` pushes for `response.Contents`: every
object whose `Key` differs from the requested prefix, with its metadata and
`isFolder: false`. -/
def fileEntries (pfx : String) (resp : ListObjectsResponse) : List S3Object :=
  (resp.contents.filter (fun o => ¬ o.key = pfx)).map
    (fun o => ⟨o.key, o.size, o.lastModified, o.etag, o.storageClass, false⟩)

/-- The object list `listObjects` assembles from a provider reply: folders
first, then files. -/
def processListObjects (pfx : String) (resp : ListObjectsResponse) : List S3Object :=
  folderEntries resp ++ fileEntries pfx resp

/-- Method `AwsService.listObjects` (delimiter defaulted to `/` at the call site is
irrelevant once the provider reply is given). -/
def AwsService.listObjects (svc : AwsService) (_bucketName pfx : String)
    (resp : Except String ListObjectsResponse) : Except AwsError (List S3Object) :=
  match svc.s3Client with
  | none => .error (.provider notInitializedMsg)
  | some _ =>
      match resp with
      | .error e => .error (.provider e)
      | .ok r => .ok (processListObjects pfx r)

/-- Modelled from the spec: the AWS SDK presigner `getSignedUrl` is external
to this repository.  It mints a virtual-hosted-style presigned GET URL for
the bucket and key of the command whose validity window is the `expiresIn`
option, carried in the `X-Amz-Expires` query parameter. -/
def getSignedUrl (cfg : S3ClientConfig) (bucket key : String) (expiresIn : Nat) : String :=
  "https://" ++ bucket ++ ".s3." ++ cfg.region ++ ".amazonaws.com/" ++ key ++
    "?X-Amz-Expires=" ++ toString expiresIn

/-- Method `AwsService.getDownloadUrl`: fails when unbound, otherwise presigns a
GET of the key with `expiresIn: 3600`. -/
def AwsService.getDownloadUrl (svc : AwsService) (bucketName key : String) :
    Except AwsError String :=
  match svc.s3Client with
  | none => .error (.provider notInitializedMsg)
  | some cfg => .ok (getSignedUrl cfg bucketName key 3600)

/-- Method `AwsService.deleteObject`: fails when unbound, otherwise one
`DeleteObjectCommand` whose outcome is that of the provider. -/
def AwsService.deleteObject (svc : AwsService) (_bucketName _key : String)
    (resp : Except String Unit) : Except AwsError Unit :=
  match svc.s3Client with
  | none => .error (.provider notInitializedMsg)
  | some _ =>
      match resp with
      | .error e => .error (.provider e)
      | .ok _ => .ok ()

/-- Method `AwsService.uploadObject`: fails when unbound, otherwise one
`PutObjectCommand` whose outcome is that of the provider. -/
def AwsService.uploadObject (svc : AwsService) (_bucketName _key : String)
    (_body : List Nat) (resp : Except String Unit) : Except AwsError Unit :=
  match svc.s3Client with
  | none => .error (.provider notInitializedMsg)
  | some _ =>
      match resp with
      | .error e => .error (.provider e)
      | .ok _ => .ok ()

/-! Credential Resolver (`src/shared/schema.ts`, `awsCredentialsSchema`)

`z.object({...}).parse` either returns the record or throws a `ZodError`
carrying one issue per failing field; `z.string().min(1, msg)` issues `msg`
when the field is absent or is the empty string. -/

/-- A raw JSON body for the static-key connect endpoint: each schema field
either absent or present as a string. -/
structure RawCredPayload where
  accessKeyId : Option String
  secretAccessKey : Option String
  region : Option String
  sessionToken : Option String
deriving DecidableEq, Repr

/-- The `min(1, ...)` message for `accessKeyId`. -/
def accessKeyIdMsg : String := "Access Key ID is required"

/-- The `min(1, ...)` message for `secretAccessKey`. -/
def secretAccessKeyMsg : String := "Secret Access Key is required"

/-- The `min(1, ...)` message for `region`. -/
def regionMsg : String := "Region is required"

/-- Issues produced by one required `z.string().min(1, msg)` field. -/
def fieldIssues (v : Option String) (msg : String) : List String :=
  match v with
  | none => [msg]
  | some s => if s.isEmpty then [msg] else []

/-- All issues `awsCredentialsSchema.parse` collects on the three required
fields. -/
def credIssues (p : RawCredPayload) : List String :=
  fieldIssues p.accessKeyId accessKeyIdMsg ++
    fieldIssues p.secretAccessKey secretAccessKeyMsg ++
    fieldIssues p.region regionMsg

/-- Function `awsCredentialsSchema.parse`: the validation error listing every failing
message of each failing required field, or the record built from the input fields.  When
no issue exists each required field is present, so the `getD` defaults are
never read. -/
def parseAwsCredentials (p : RawCredPayload) : Except (List String) AwsCredentials :=
  match credIssues p with
  | [] => .ok ⟨p.accessKeyId.getD "", p.secretAccessKey.getD "", p.region.getD "",
      p.sessionToken⟩
  | issues => .error issues

/-! Session-id generation (`src/server/storage.ts`, `createSession`)

`Math.random().toString(36).substring(7)`.  A `Math.random` value is a
double of the form `m / 2^52` (the common PRNG implementations fill at most
52 mantissa bits), so the generator is a function of a seed drawn from a set
of size `2^52`.  `toString(36)` prints `0.` followed by base-36 fraction
digits (11 digits suffice for 52 bits), and `substring(7)` drops the first
seven characters. -/

/-- Number of distinct values `Math.random` can return. -/
def mathRandomStates : Nat := 2 ^ 52

/-- The `i`-th (1-based) base-36 fraction digit of `seed / 2^52`. -/
def base36FracDigit (seed i : Nat) : Nat := seed * 36 ^ i / mathRandomStates % 36

/-- The character for one base-36 digit (`0`-`9` then `a`-`z`). -/
def base36DigitChar (d : Nat) : Char :=
  if d < 10 then Char.ofNat (48 + d) else Char.ofNat (87 + d)

/-- The string `Math.random().toString(36)` for the double `seed / 2^52`. -/
def mathRandomToString36 (seed : Nat) : String :=
  "0." ++ String.mk ((List.range 11).map
    (fun i => base36DigitChar (base36FracDigit seed (i + 1))))

/-- The session id `createSession` computes from one `Math.random` draw. -/
def generateSessionId (seed : Fin mathRandomStates) : String :=
  (mathRandomToString36 seed.val).drop 7

/-! Request Mediator (`src/unnamed/part_003`, `registerRoutes`) -/

/-- An HTTP reply: a JSON body (status 200) or
`res.status(n).json({error: msg})`. -/
inductive RouteResult (α : Type) where
  | ok (body : α)
  | err (status : Nat) (msg : String)
deriving DecidableEq, Repr

/-- The JSON body of `/api/connection/status`. -/
structure StatusBody where
  connected : Bool
  region : Option String
deriving DecidableEq, Repr

/-- GET `/api/connection/status`.  `initOk` is whether re-initializing the
client with the credentials of the session succeeded (a throw lands in the
`catch`, which still replies with a JSON body). -/
def connectionStatusRoute (st : MemStorage) (cookieSid : Option String)
    (initOk : Bool) : RouteResult StatusBody :=
  match cookieSid with
  | none => .ok ⟨false, none⟩
  | some sid =>
      match st.getSession sid with
      | none => .ok ⟨false, none⟩
      | some session =>
          if initOk then .ok ⟨true, some session.credentials.region⟩
          else .ok ⟨false, none⟩

/-- What POST `/api/disconnect` leaves behind: the store, the session cookie
(`req.session = null` clears it), and the JSON `success` flag. -/
structure DisconnectOutcome where
  store : MemStorage
  cookie : Option String
  success : Bool
deriving DecidableEq, Repr

/-- POST `/api/disconnect`: deletes the session when a cookie names one and
always replies `{success: true}` (the in-memory delete cannot throw). -/
def disconnectRoute (st : MemStorage) (cookieSid : Option String) : DisconnectOutcome :=
  match cookieSid with
  | none => ⟨st, none, true⟩
  | some sid => ⟨st.deleteSession sid, none, true⟩

/-- GET `/api/buckets`: 401 without a cookie or stored session, otherwise
re-bind the gateway and forward its outcome (a throw becomes a 500). -/
def listBucketsRoute (st : MemStorage) (cookieSid : Option String) (svc : AwsService)
    (resp : Except String (List BucketData)) : RouteResult (List S3Bucket) :=
  match cookieSid with
  | none => .err 401 "Not connected"
  | some sid =>
      match st.getSession sid with
      | none => .err 401 "Invalid session"
      | some session =>
          match (svc.initializeWithCredentials session.credentials).listBuckets resp with
          | .ok buckets => .ok buckets
          | .error (.provider msg) => .err 500 msg

/-! Claims about `listObjects` -/

/-- C1: the claim as stated is false.  `listObjects` filters the queried
prefix only out of `Contents`; a common prefix equal to the queried prefix
is passed through as a folder entry, so a provider reply with
`CommonPrefixes = [prefix]` yields an entry whose key equals the prefix. -/
theorem claim1_counterexample :
    ∃ e ∈ processListObjects "a/" ⟨["a/"], []⟩, e.key = "a/" := by
  refine ⟨⟨"a/", none, none, none, none, true⟩, ?_, rfl⟩
  simp [processListObjects, folderEntries, fileEntries]

/-- C1 (amended): file entries built from `Contents` never carry the queried
prefix as key; folder entries are not filtered, so the full exclusion holds
exactly when no common prefix of the reply equals the queried prefix (as a
well-formed provider guarantees). -/
theorem claim1_listObjects_prefix_exclusion (pfx : String) (resp : ListObjectsResponse)
    (h : pfx ∉ resp.commonPrefixes) :
    ∀ e ∈ processListObjects pfx resp, e.key ≠ pfx := by
  intro e he
  simp only [processListObjects, List.mem_append] at he
  rcases he with he | he
  · simp only [folderEntries, List.mem_map] at he
    obtain ⟨p, hp, rfl⟩ := he
    exact fun hk => h (hk ▸ hp)
  · simp only [fileEntries, List.mem_map, List.mem_filter] at he
    obtain ⟨o, ⟨_, ho⟩, rfl⟩ := he
    simpa using ho

/-- C1 witness: the amended exclusion at a concrete reply holding a folder,
a directory-marker object, and a file under the queried prefix, instantiated
at the folder entry of the output. -/
theorem claim1_listObjects_prefix_exclusion_witness :
    (⟨"a/b/", none, none, none, none, true⟩ : S3Object).key ≠ "a/" :=
  claim1_listObjects_prefix_exclusion "a/"
    ⟨["a/b/"], [⟨"a/", some 0, none, none, none⟩,
                ⟨"a/x.txt", some 12, none, none, none⟩]⟩
    (by decide) ⟨"a/b/", none, none, none, none, true⟩ (by decide)

/-- C2: `listObjects` output is the folder entries followed by the file
entries; every common prefix of the reply appears as a folder entry with
`isFolder = true` and no size, lastModified or etag; every folder entry has
that shape; every file entry has `isFolder = false`. -/
theorem claim2_listObjects_folder_classification (pfx : String)
    (resp : ListObjectsResponse) :
    processListObjects pfx resp = folderEntries resp ++ fileEntries pfx resp ∧
    (∀ p ∈ resp.commonPrefixes,
      (⟨p, none, none, none, none, true⟩ : S3Object) ∈ folderEntries resp) ∧
    (∀ e ∈ folderEntries resp,
      e.isFolder = true ∧ e.size = none ∧ e.lastModified = none ∧ e.etag = none) ∧
    (∀ e ∈ fileEntries pfx resp, e.isFolder = false) := by
  refine ⟨rfl, ?_, ?_, ?_⟩
  · intro p hp
    simp only [folderEntries, List.mem_map]
    exact ⟨p, hp, rfl⟩
  · intro e he
    simp only [folderEntries, List.mem_map] at he
    obtain ⟨p, _, rfl⟩ := he
    exact ⟨rfl, rfl, rfl, rfl⟩
  · intro e he
    simp only [fileEntries, List.mem_map] at he
    obtain ⟨o, _, rfl⟩ := he
    rfl

/-- C2 witness: the classification at a concrete reply with two common
prefixes and one object. -/
theorem claim2_listObjects_folder_classification_witness :
    (⟨"d/e/", none, none, none, none, true⟩ : S3Object) ∈
      folderEntries ⟨["d/e/", "d/f/"], [⟨"d/y.bin", some 7, some 5, some "tag", none⟩]⟩ :=
  (claim2_listObjects_folder_classification "d/"
      ⟨["d/e/", "d/f/"], [⟨"d/y.bin", some 7, some 5, some "tag", none⟩]⟩).2.1
    "d/e/" (by decide)

/-! Claim about the Credential Resolver -/

/-- Whether one required `z.string().min(1)` field accepts: present and
non-empty. -/
def requiredFieldOk (v : Option String) : Bool :=
  match v with
  | none => false
  | some s => !s.isEmpty

theorem fieldIssues_eq_nil (v : Option String) (msg : String) :
    fieldIssues v msg = [] ↔ requiredFieldOk v = true := by
  cases v with
  | none => simp [fieldIssues, requiredFieldOk]
  | some s => by_cases h : s.isEmpty <;> simp [fieldIssues, requiredFieldOk, h]

theorem mem_fieldIssues (v : Option String) (msg : String)
    (h : requiredFieldOk v = false) : msg ∈ fieldIssues v msg := by
  cases v with
  | none => simp [fieldIssues]
  | some s =>
      simp only [requiredFieldOk, Bool.not_eq_false'] at h
      simp [fieldIssues, h]

theorem some_getD_of_ok (v : Option String) (h : requiredFieldOk v = true) :
    some (v.getD "") = v := by
  cases v with
  | none => simp [requiredFieldOk] at h
  | some s => rfl

theorem parseAwsCredentials_error_of_issue (p : RawCredPayload)
    (h : credIssues p ≠ []) :
    parseAwsCredentials p = .error (credIssues p) := by
  cases hc : credIssues p with
  | nil => exact absurd hc h
  | cons a l => simp [parseAwsCredentials, hc]

/-- C3: a static-key payload with non-empty `accessKeyId`, `secretAccessKey`
and `region` parses to the record holding exactly those fields (and the
input `sessionToken`); a payload whose required field is absent or empty
fails with a validation error containing the message of that field. -/
theorem claim3_credential_resolver (p : RawCredPayload) :
    (requiredFieldOk p.accessKeyId = true → requiredFieldOk p.secretAccessKey = true →
      requiredFieldOk p.region = true →
      ∃ c, parseAwsCredentials p = .ok c ∧ some c.accessKeyId = p.accessKeyId ∧
        some c.secretAccessKey = p.secretAccessKey ∧ some c.region = p.region ∧
        c.sessionToken = p.sessionToken) ∧
    (requiredFieldOk p.accessKeyId = false →
      ∃ issues, parseAwsCredentials p = .error issues ∧ accessKeyIdMsg ∈ issues) ∧
    (requiredFieldOk p.secretAccessKey = false →
      ∃ issues, parseAwsCredentials p = .error issues ∧ secretAccessKeyMsg ∈ issues) ∧
    (requiredFieldOk p.region = false →
      ∃ issues, parseAwsCredentials p = .error issues ∧ regionMsg ∈ issues) := by
  refine ⟨?_, ?_, ?_, ?_⟩
  · intro ha hs hr
    have hc : credIssues p = [] := by
      simp [credIssues, (fieldIssues_eq_nil _ _).mpr ha,
        (fieldIssues_eq_nil _ _).mpr hs, (fieldIssues_eq_nil _ _).mpr hr]
    exact ⟨⟨p.accessKeyId.getD "", p.secretAccessKey.getD "", p.region.getD "",
        p.sessionToken⟩,
      by simp [parseAwsCredentials, hc], some_getD_of_ok _ ha, some_getD_of_ok _ hs,
      some_getD_of_ok _ hr, rfl⟩
  · intro ha
    have hm : accessKeyIdMsg ∈ credIssues p := by
      simp only [credIssues, List.mem_append]
      exact Or.inl (Or.inl (mem_fieldIssues _ _ ha))
    exact ⟨_, parseAwsCredentials_error_of_issue p (List.ne_nil_of_mem hm), hm⟩
  · intro hs
    have hm : secretAccessKeyMsg ∈ credIssues p := by
      simp only [credIssues, List.mem_append]
      exact Or.inl (Or.inr (mem_fieldIssues _ _ hs))
    exact ⟨_, parseAwsCredentials_error_of_issue p (List.ne_nil_of_mem hm), hm⟩
  · intro hr
    have hm : regionMsg ∈ credIssues p := by
      simp only [credIssues, List.mem_append]
      exact Or.inr (mem_fieldIssues _ _ hr)
    exact ⟨_, parseAwsCredentials_error_of_issue p (List.ne_nil_of_mem hm), hm⟩

/-- C3 witness: a fully-populated payload parses to its own fields, and a
payload with an empty secret key fails naming the secret key. -/
theorem claim3_credential_resolver_witness :
    (∃ c, parseAwsCredentials ⟨some "AKIA123", some "s3cr3t", some "us-east-1", none⟩ =
        .ok c ∧ some c.accessKeyId = some "AKIA123" ∧
        some c.secretAccessKey = some "s3cr3t" ∧ some c.region = some "us-east-1" ∧
        c.sessionToken = none) ∧
    (∃ issues, parseAwsCredentials ⟨some "AKIA123", some "", some "us-east-1", none⟩ =
        .error issues ∧ secretAccessKeyMsg ∈ issues) :=
  ⟨(claim3_credential_resolver ⟨some "AKIA123", some "s3cr3t", some "us-east-1", none⟩).1
      (by decide) (by decide) (by decide),
   (claim3_credential_resolver ⟨some "AKIA123", some "", some "us-east-1", none⟩).2.2.1
      (by decide)⟩

/-! Claims about the Session Store -/

/-- C4: looking up the id of a freshly created session returns that session,
whose record is the credentials passed in; after deleting an id, looking it
up returns absent. -/
theorem claim4_session_store_roundtrip (st : MemStorage) (genId : String) (now : Nat)
    (creds : AwsCredentials) (sid : String) :
    (st.createSession genId now creds).2.getSession
        (st.createSession genId now creds).1.id =
      some (st.createSession genId now creds).1 ∧
    (st.createSession genId now creds).1.credentials = creds ∧
    (st.deleteSession sid).getSession sid = none := by
  refine ⟨?_, rfl, ?_⟩
  · simpa [MemStorage.createSession, MemStorage.getSession] using
      mapGet_mapSet_self st.sessions genId ⟨genId, creds, now⟩
  · simpa [MemStorage.deleteSession, MemStorage.getSession] using
      mapGet_mapDelete_self st.sessions sid

/-- C10: `createSession` touches only the binding at the id it returns and
`deleteSession` removes only the given id; and `createSession` overwrites an
existing binding of the generated id with the new session, with no error. -/
theorem claim10_session_store_frame (st : MemStorage) (genId sid other : String)
    (now : Nat) (creds : AwsCredentials) :
    (other ≠ genId →
      (st.createSession genId now creds).2.getSession other = st.getSession other) ∧
    (other ≠ sid →
      (st.deleteSession sid).getSession other = st.getSession other) ∧
    (st.createSession genId now creds).1.id = genId ∧
    (st.createSession genId now creds).2.getSession genId =
      some ⟨genId, creds, now⟩ := by
  refine ⟨?_, ?_, rfl, ?_⟩
  · intro h
    simpa [MemStorage.createSession, MemStorage.getSession] using
      mapGet_mapSet_other st.sessions genId other ⟨genId, creds, now⟩ h
  · intro h
    simpa [MemStorage.deleteSession, MemStorage.getSession] using
      mapGet_mapDelete_other st.sessions sid other h
  · simpa [MemStorage.createSession, MemStorage.getSession] using
      mapGet_mapSet_self st.sessions genId ⟨genId, creds, now⟩

/-- C10 witness: in a store already holding ids `old` and `keep`, creating a
session under the existing id `old` overwrites it and leaves `keep` intact,
and deleting `old` leaves `keep` intact. -/
theorem claim10_session_store_frame_witness :
    (let creds : AwsCredentials := ⟨"A", "S", "us-east-1", none⟩
     let oldSession : S3Session := ⟨"old", creds, 1⟩
     let keepSession : S3Session := ⟨"keep", creds, 2⟩
     let st : MemStorage := ⟨[("old", oldSession), ("keep", keepSession)]⟩
     (st.createSession "old" 9 creds).2.getSession "keep" = st.getSession "keep" ∧
     (st.deleteSession "old").getSession "keep" = st.getSession "keep" ∧
     (st.createSession "old" 9 creds).2.getSession "old" = some ⟨"old", creds, 9⟩) := by
  refine ⟨?_, ?_, ?_⟩
  · exact (claim10_session_store_frame ⟨[("old", ⟨"old", ⟨"A", "S", "us-east-1", none⟩, 1⟩),
      ("keep", ⟨"keep", ⟨"A", "S", "us-east-1", none⟩, 2⟩)]⟩ "old" "x" "keep" 9
      ⟨"A", "S", "us-east-1", none⟩).1 (by decide)
  · exact (claim10_session_store_frame ⟨[("old", ⟨"old", ⟨"A", "S", "us-east-1", none⟩, 1⟩),
      ("keep", ⟨"keep", ⟨"A", "S", "us-east-1", none⟩, 2⟩)]⟩ "x" "old" "keep" 9
      ⟨"A", "S", "us-east-1", none⟩).2.1 (by decide)
  · exact (claim10_session_store_frame ⟨[("old", ⟨"old", ⟨"A", "S", "us-east-1", none⟩, 1⟩),
      ("keep", ⟨"keep", ⟨"A", "S", "us-east-1", none⟩, 2⟩)]⟩ "old" "x" "keep" 9
      ⟨"A", "S", "us-east-1", none⟩).2.2.2

/-! Claim about failure on an unbound gateway -/

/-- C5: with no bound client, each of the five gateway operations fails with
the wrapped not-initialized error, whatever the arguments and whatever the
provider would have replied. -/
theorem claim5_unbound_operations_fail (svc : AwsService) (h : svc.s3Client = none)
    (bucket key pfx : String) (body : List Nat)
    (bresp : Except String (List BucketData))
    (oresp : Except String ListObjectsResponse)
    (dresp uresp : Except String Unit) :
    svc.listBuckets bresp = .error (.provider notInitializedMsg) ∧
    svc.listObjects bucket pfx oresp = .error (.provider notInitializedMsg) ∧
    svc.getDownloadUrl bucket key = .error (.provider notInitializedMsg) ∧
    svc.deleteObject bucket key dresp = .error (.provider notInitializedMsg) ∧
    svc.uploadObject bucket key body uresp = .error (.provider notInitializedMsg) := by
  obtain ⟨c⟩ := svc
  cases h
  exact ⟨rfl, rfl, rfl, rfl, rfl⟩

/-- C5 witness: the five failures on the freshly constructed (unbound)
service at concrete arguments. -/
theorem claim5_unbound_operations_fail_witness :
    (AwsService.mk none).listBuckets (.ok []) =
        .error (.provider notInitializedMsg) ∧
    (AwsService.mk none).listObjects "b" "p/" (.ok ⟨[], []⟩) =
        .error (.provider notInitializedMsg) ∧
    (AwsService.mk none).getDownloadUrl "b" "k" =
        .error (.provider notInitializedMsg) ∧
    (AwsService.mk none).deleteObject "b" "k" (.ok ()) =
        .error (.provider notInitializedMsg) ∧
    (AwsService.mk none).uploadObject "b" "k" [0] (.ok ()) =
        .error (.provider notInitializedMsg) :=
  claim5_unbound_operations_fail (AwsService.mk none) rfl "b" "k" "p/" [0]
    (.ok []) (.ok ⟨[], []⟩) (.ok ()) (.ok ())

/-! Claim about presigned download URLs -/

/-- C6: with a bound client, `getDownloadUrl` returns a URL containing the
target bucket and the target key whose `X-Amz-Expires` validity window is
3600 seconds, i.e. one hour. -/
theorem claim6_download_url (svc : AwsService) (cfg : S3ClientConfig)
    (h : svc.s3Client = some cfg) (bucket key : String) :
    ∃ url, svc.getDownloadUrl bucket key = .ok url ∧
      (∃ u v, url = u ++ bucket ++ v) ∧
      (∃ u v, url = u ++ key ++ v) ∧
      (∃ u, url = u ++ ("?X-Amz-Expires=" ++ toString 3600)) ∧
      (3600 : Nat) = 60 * 60 := by
  obtain ⟨c⟩ := svc
  cases h
  refine ⟨getSignedUrl cfg bucket key 3600, rfl, ?_, ?_, ?_, rfl⟩
  · exact ⟨"https://", ".s3." ++ cfg.region ++ ".amazonaws.com/" ++ key ++
      "?X-Amz-Expires=" ++ toString 3600, by simp [getSignedUrl, String.append_assoc]⟩
  · exact ⟨"https://" ++ bucket ++ ".s3." ++ cfg.region ++ ".amazonaws.com/",
      "?X-Amz-Expires=" ++ toString 3600, by simp [getSignedUrl, String.append_assoc]⟩
  · exact ⟨"https://" ++ bucket ++ ".s3." ++ cfg.region ++ ".amazonaws.com/" ++ key,
      by simp [getSignedUrl, String.append_assoc]⟩

/-- C6 witness: the presigned URL for a concrete client, bucket and key. -/
theorem claim6_download_url_witness :
    ∃ url, (AwsService.mk (some ⟨"AK", "SK", none, "eu-west-1"⟩)).getDownloadUrl
        "mybucket" "dir/file.txt" = .ok url ∧
      (∃ u v, url = u ++ "mybucket" ++ v) ∧
      (∃ u v, url = u ++ "dir/file.txt" ++ v) ∧
      (∃ u, url = u ++ ("?X-Amz-Expires=" ++ toString 3600)) ∧
      (3600 : Nat) = 60 * 60 :=
  claim6_download_url (AwsService.mk (some ⟨"AK", "SK", none, "eu-west-1"⟩))
    ⟨"AK", "SK", none, "eu-west-1"⟩ rfl "mybucket" "dir/file.txt"

/-! Claims about the Request Mediator -/

/-- C7: `/api/connection/status` always answers with a JSON body (never an
error status); the body reports `connected = true` exactly when a cookie
names a stored session and re-initialization succeeded, in which case the
body carries the region of that session; every failure path reports
`connected = false` with no region. -/
theorem claim7_connection_status (st : MemStorage) (cookieSid : Option String)
    (initOk : Bool) :
    ∃ body, connectionStatusRoute st cookieSid initOk = .ok body ∧
      (body.connected = true ↔ ∃ sid session, cookieSid = some sid ∧
          st.getSession sid = some session ∧ initOk = true) ∧
      (body.connected = true → ∃ sid session, cookieSid = some sid ∧
          st.getSession sid = some session ∧
          body.region = some session.credentials.region) ∧
      (body.connected = false → body.region = none) := by
  cases cookieSid with
  | none =>
      refine ⟨⟨false, none⟩, rfl, by simp, ?_, fun _ => rfl⟩
      intro h
      exact Bool.noConfusion h
  | some sid =>
      cases hs : st.getSession sid with
      | none =>
          refine ⟨⟨false, none⟩, by simp [connectionStatusRoute, hs], by simp [hs], ?_,
            fun _ => rfl⟩
          intro h
          exact Bool.noConfusion h
      | some session =>
          cases initOk with
          | true =>
              refine ⟨⟨true, some session.credentials.region⟩,
                by simp [connectionStatusRoute, hs], ?_, ?_, ?_⟩
              · simp [hs]
              · exact fun _ => ⟨sid, session, rfl, hs, rfl⟩
              · intro h
                exact Bool.noConfusion h
          | false =>
              refine ⟨⟨false, none⟩, by simp [connectionStatusRoute, hs], by simp [hs], ?_,
                fun _ => rfl⟩
              intro h
              exact Bool.noConfusion h

/-- C7 witness: the status reply for a store holding one session, presenting
its cookie, with re-initialization succeeding. -/
theorem claim7_connection_status_witness :
    ∃ body, connectionStatusRoute
        ⟨[("sid1", ⟨"sid1", ⟨"A", "S", "ap-south-1", none⟩, 0⟩)]⟩ (some "sid1") true =
        .ok body ∧
      (body.connected = true ↔ ∃ sid session, (some "sid1" : Option String) = some sid ∧
          MemStorage.getSession ⟨[("sid1", ⟨"sid1", ⟨"A", "S", "ap-south-1", none⟩, 0⟩)]⟩
            sid = some session ∧ true = true) ∧
      (body.connected = true → ∃ sid session, (some "sid1" : Option String) = some sid ∧
          MemStorage.getSession ⟨[("sid1", ⟨"sid1", ⟨"A", "S", "ap-south-1", none⟩, 0⟩)]⟩
            sid = some session ∧
          body.region = some session.credentials.region) ∧
      (body.connected = false → body.region = none) :=
  claim7_connection_status ⟨[("sid1", ⟨"sid1", ⟨"A", "S", "ap-south-1", none⟩, 0⟩)]⟩
    (some "sid1") true

/-- C8: `/api/disconnect` always replies `{success: true}` (also with no
active session) and clears the cookie, and a later `/api/buckets` request
replaying the old cookie is answered 401 because the deleted id no longer
resolves. -/
theorem claim8_disconnect_then_buckets (st : MemStorage) (sid : String)
    (cookieSid : Option String) (svc : AwsService)
    (resp : Except String (List BucketData)) :
    (disconnectRoute st cookieSid).success = true ∧
    (disconnectRoute st cookieSid).cookie = none ∧
    listBucketsRoute (disconnectRoute st (some sid)).store (some sid) svc resp =
      .err 401 "Invalid session" := by
  refine ⟨?_, ?_, ?_⟩
  · cases cookieSid <;> rfl
  · cases cookieSid <;> rfl
  · have hg : (st.deleteSession sid).getSession sid = none := by
      simpa [MemStorage.deleteSession, MemStorage.getSession] using
        mapGet_mapDelete_self st.sessions sid
    simp [listBucketsRoute, disconnectRoute, hg]

/-! Claim about session-id entropy -/

/-- C9: the claim is right and the code is wrong.  The session id is a
function of one `Math.random` draw, so at most `2^52` distinct ids can ever
be produced — far below the `2^128` search space the claim requires. -/
theorem claim9_sessionId_entropy_deficit :
    (Finset.image generateSessionId Finset.univ).card ≤ mathRandomStates ∧
    mathRandomStates < 2 ^ 128 := by
  constructor
  · calc (Finset.image generateSessionId Finset.univ).card
        ≤ (Finset.univ : Finset (Fin mathRandomStates)).card := Finset.card_image_le
      _ = mathRandomStates := by
        rw [Finset.card_univ, Fintype.card_fin]
  · rw [mathRandomStates]
    exact Nat.pow_lt_pow_right (by norm_num) (by norm_num)

end S3ClientSpec
